import Mathlib

/-!
Verification of the MongoDB replica-set controller (`src/db-replica_ctrl.py`).

Shallow embedding: the controller's pure decision logic is translated into
executable Lean definitions.  External effects (Docker API answers, MongoDB
driver answers, in-container shell results) are passed in as explicit
environment values, so that every code path of the Python source corresponds
to a concrete evaluation of the Lean functions.
-/

namespace RSCtrl

/-- Substring test, embedding Python's `"pat" in s` on strings. -/
def substrOf (pat s : String) : Bool :=
  decide (List.IsInfix pat.toList s.toList)

/-- Embeds `host.split(":")[0]`: the ip part of a `"ip:port"` host string,
that is, the characters before the first `':'` (the whole string when no
`':'` occurs, exactly as Python's `split` behaves on index 0). -/
def hostIp (h : String) : String :=
  String.mk (h.toList.takeWhile (fun c => !(c == ':')))

/-- One element of a replica-set configuration's `members` array:
`{'_id': <memberId>, 'host': <host>}`. -/
structure MemberSpec where
  memberId : Nat
  host : String
deriving DecidableEq

/-- A replica-set configuration document `{'_id': setName, 'version': v,
'members': [...]}` as built and mutated by the controller. -/
structure RSConfig where
  setName : String
  version : Nat
  members : List MemberSpec
deriving DecidableEq

/-- Embeds the member-building loop of `create_mongo_config`
(`for i, ip in enumerate(tasks_ips): members.append({'_id': i, 'host': ip:port})`). -/
def create_mongo_config (tasks_ips : List String) (replicaset_name : String)
    (mongo_port : Nat) : RSConfig :=
  { setName := replicaset_name
    version := 1
    members := tasks_ips.enum.map
      (fun p => { memberId := p.1, host := p.2 ++ ":" ++ toString mongo_port }) }

/-- Embeds the removal block of `update_config` (`if to_remove: new_members =
[m for m in config['members'] if m['host'].split(":")[0] not in to_remove]`). -/
def removeMembers (members : List MemberSpec) (to_remove : List String) :
    List MemberSpec :=
  if to_remove.isEmpty then members
  else members.filter (fun m => !(decide (hostIp m.host ∈ to_remove)))

/-- Embeds the id-offset computation of `update_config`
(`offset = max([m['_id'] for m in config['members']]) + 1` when members
remain, `else offset = 0`). -/
def nextOffset (ms : List MemberSpec) : Nat :=
  match ms with
  | [] => 0
  | _ => ((ms.map (fun m => m.memberId)).foldl Nat.max 0) + 1

/-- Embeds the addition block of `update_config` (`if to_add: ... for i, ip
in enumerate(to_add): members.append({'_id': offset + i, 'host': ip:port})`). -/
def appendNew (ms1 : List MemberSpec) (to_add : List String) (port : Nat) :
    List MemberSpec :=
  if to_add.isEmpty then ms1
  else ms1 ++ to_add.enum.map
    (fun p => { memberId := nextOffset ms1 + p.1, host := p.2 ++ ":" ++ toString port })

/-- Embeds the config-mutation section of `update_config` (source lines
794-813): drop members whose host-ip is in `to_remove`, append a member per
ip of `to_add` with ids `offset, offset+1, ...` where `offset` is
`max(remaining ids)+1` (or `0` when no member remains), and bump `version`;
`'_id'` (the set name) is untouched. -/
def mutateConfig (config : RSConfig) (to_remove to_add : List String)
    (port : Nat) : RSConfig :=
  { setName := config.setName
    version := config.version + 1
    members := appendNew (removeMembers config.members to_remove) to_add port }

/-- Folding a sequence of membership mutations over a starting configuration,
as performed by successive `update_config` reconfigurations. -/
def applySeq (cfg : RSConfig) (steps : List (List String × List String))
    (port : Nat) : RSConfig :=
  steps.foldl (fun c s => mutateConfig c s.1 s.2 port) cfg

/- ### NodeProbe: hello responses and primary lookup -/

/-- Outcome of an unauthenticated direct `hello` probe against one node:
either a reply (with `isWritablePrimary` and `setName`), or any of the
caught exceptions (timeout, auth failure, other), which `get_primary_ip`
and the uninitialized-scan all treat alike by skipping the node. -/
inductive HelloRes where
  | ok (isWritablePrimary : Bool) (setName : Option String)
  | err
deriving DecidableEq

/-- Embeds `get_primary_ip`: probe each ip in order with `hello` over a
direct connection and return the first that reports `isWritablePrimary`;
all exceptions are logged and skipped. -/
def get_primary_ip (hello : String → HelloRes) (ips : List String) :
    Option String :=
  ips.find? (fun t =>
    match hello t with
    | .ok w _ => w
    | .err => false)

/- ### update_config -/

/-- Embeds `to_remove = set(current_ips) - set(new_ips)` (list model of the
set difference; call sites pass duplicate-free ip sets). -/
def toRemoveL (current new : List String) : List String :=
  current.filter (fun x => !(decide (x ∈ new)))

/-- Embeds `to_add = set(new_ips) - set(current_ips)`. -/
def toAddL (current new : List String) : List String :=
  new.filter (fun x => !(decide (x ∈ current)))

/-- Environment of one `update_config` call: what the surrounding cluster
answers to each of its probes and commands. -/
structure UCEnv where
  helloCheck : String → HelloRes
  helloWait : Nat → String → HelloRes
  readConfig : String → Option RSConfig
  reconfigOk : Nat → Bool

/-- Embeds the full-redeployment scan of `update_config`: `all_nodes_uninitialized`
stays true unless some reachable node of `new_ips` reports a `setName`
(exceptions `pass` and so cannot falsify it). -/
def allNodesUninitialized (hello : String → HelloRes) (new_ips : List String) : Bool :=
  new_ips.all (fun t =>
    match hello t with
    | .ok _ (some _) => false
    | _ => true)

/-- Embeds the `while attempts and not primary_ip` wait loop of
`update_config`: up to `fuel` calls of `get_primary_ip` over `new_ips`,
stopping at the first success (`i` counts the iterations already done). -/
def waitForPrimary (hw : Nat → String → HelloRes) (new_ips : List String) :
    Nat → Nat → Option String
  | _, 0 => none
  | i, f + 1 =>
    match get_primary_ip (hw i) new_ips with
    | some p => some p
    | none => waitForPrimary hw new_ips (i + 1) f

/-- Final value of the `force` flag in `update_config`: the dead first
assignment (source lines 725-730) is unconditionally overwritten by
`force = len(to_remove) > 1 or len(to_add) > 1`, which is then overridden to
`True` when the known primary is in `to_remove` or is `None`. -/
def ucForce (p0 : Option String) (to_remove to_add : List String) : Bool :=
  match p0 with
  | none => true
  | some p =>
    if decide (p ∈ to_remove) then true
    else decide (to_remove.length > 1) || decide (to_add.length > 1)

/-- Embeds the primary re-election fallback of `update_config` (run when the
previous primary is in `to_remove` or unknown): skip the wait loop when every
node of `new_ips` looks uninitialized, otherwise poll up to 6 times; when
still no primary, pick the first surviving old member
(`list(new_ips - to_add)[0]`) or else the first new ip; `none` models the
`IndexError` raised when `new_ips` is empty. -/
def electFallback (env : UCEnv) (new_ips to_add : List String) : Option String :=
  let pElected :=
    if allNodesUninitialized env.helloCheck new_ips && !new_ips.isEmpty then none
    else waitForPrimary env.helloWait new_ips 0 6
  match pElected with
  | some p => some p
  | none =>
    match new_ips.filter (fun x => !(decide (x ∈ to_add))) with
    | o :: _ => some o
    | [] => new_ips.head?

/-- The ip that `update_config` finally connects to for the reconfiguration. -/
def ucTarget (env : UCEnv) (p0 : Option String) (new_ips to_remove to_add : List String) :
    Option String :=
  match p0 with
  | none => electFallback env new_ips to_add
  | some p =>
    if decide (p ∈ to_remove) then electFallback env new_ips to_add
    else some p

/-- Embeds the bounded `replSetReconfig` retry loop (`attempts = 3`, retry on
operation failure): true iff some attempt below the budget succeeds. -/
def reconfigAttempts (ok : Nat → Bool) : Nat → Nat → Bool
  | 0, _ => false
  | f + 1, i => if ok i then true else reconfigAttempts ok f (i + 1)

/-- Result of one `update_config` call.  `assertFailed` models the failing
`assert to_remove or to_add` (no change and no current members);
`indexError` models the `list(new_ips)[0]` crash on an empty new-ip set;
`connectFailed` models a failed `replSetGetConfig` on the target;
`applied`/`rejected` record the reconfig command actually issued (target ip,
mutated config, force flag) and whether the retry loop accepted it. -/
inductive UCResult where
  | assertFailed
  | indexError
  | connectFailed (target : String)
  | applied (target : String) (cfg : RSConfig) (force : Bool)
  | rejected (target : String) (cfg : RSConfig) (force : Bool)
deriving DecidableEq

/-- Embeds `update_config` (source lines 718-844): compute the removal and
addition sets, the final `force` flag and connection target, read the
existing config from the target, mutate it, and issue the reconfig with a
3-attempt retry budget. -/
def update_config (env : UCEnv) (p0 : Option String) (current new : List String)
    (port : Nat) : UCResult :=
  if (toRemoveL current new).isEmpty && (toAddL current new).isEmpty
      && current.isEmpty then .assertFailed
  else
    match ucTarget env p0 new (toRemoveL current new) (toAddL current new) with
    | none => .indexError
    | some target =>
      match env.readConfig target with
      | none => .connectFailed target
      | some cfg =>
        if reconfigAttempts env.reconfigOk 3 0 then
          .applied target (mutateConfig cfg (toRemoveL current new) (toAddL current new) port)
            (ucForce p0 (toRemoveL current new) (toAddL current new))
        else
          .rejected target (mutateConfig cfg (toRemoveL current new) (toAddL current new) port)
            (ucForce p0 (toRemoveL current new) (toAddL current new))

/- ### gather_configured_members_ips -/

/-- Outcome of one authenticated `replSetGetConfig` probe against one node:
a configuration (the host strings of its members), a server-selection
timeout, or an operation failure carrying an optional error code and a
message (authentication failures land here). -/
inductive ProbeRes where
  | configured (hosts : List String)
  | timeout
  | opFailure (code : Option Int) (msg : String)
deriving DecidableEq

/-- The source's transitional-state test on an operation failure:
`getattr(of, 'code', None) == 94 or 'NotYetInitialized' in str(of)`. -/
def isNYI (r : ProbeRes) : Bool :=
  match r with
  | .opFailure c m => (c == some 94) || substrOf "NotYetInitialized" m
  | _ => false

/-- True iff the probe returned a configuration. -/
def isConfigured (r : ProbeRes) : Bool :=
  match r with
  | .configured _ => true
  | _ => false

/-- State at the end of one pass of `gather_configured_members_ips` over the
task ips: the collected member ips, whether a configuration was found, and
how many nodes reported NotYetInitialized. -/
structure AttemptRes where
  ips : Finset String
  found : Bool
  nyi : Nat
deriving DecidableEq

/-- Embeds the inner loop of `gather_configured_members_ips`: probe each ip
in order; the first node that returns a configuration ends the pass with the
set of its members' host ips; NotYetInitialized failures are counted;
timeouts and other operation failures (per-node auth errors) are
debug-logged and skipped. -/
def gatherAttempt (probe : String → ProbeRes) : List String → Nat → AttemptRes
  | [], cnt => ⟨∅, false, cnt⟩
  | t :: rest, cnt =>
    match probe t with
    | .configured hosts => ⟨(hosts.map hostIp).toFinset, true, cnt⟩
    | .timeout => gatherAttempt probe rest cnt
    | .opFailure c m =>
      if (c == some 94) || substrOf "NotYetInitialized" m then
        gatherAttempt probe rest (cnt + 1)
      else gatherAttempt probe rest cnt

/-- Embeds the retry loop of `gather_configured_members_ips`: stop as soon
as a pass found a configuration; otherwise retry (after the 10-second delay)
only when every node was NotYetInitialized and attempts remain below
`max_retries`; the returned set is empty whenever no configuration was found. -/
def gatherLoop (probe : Nat → String → ProbeRes) (ips : List String) :
    Nat → Nat → Finset String
  | _, 0 => ∅
  | attempt, f + 1 =>
    if (gatherAttempt (probe attempt) ips 0).found then
      (gatherAttempt (probe attempt) ips 0).ips
    else if (gatherAttempt (probe attempt) ips 0).nyi = ips.length ∧ 0 < f then
      gatherLoop probe ips (attempt + 1) f
    else
      (gatherAttempt (probe attempt) ips 0).ips

/-- Embeds `gather_configured_members_ips` with its `max_retries = 3` window
(`probe` carries the cluster's answer to each probe at each attempt; the
10-second inter-attempt delays do not affect the result). -/
def gather_configured_members_ips (probe : Nat → String → ProbeRes)
    (ips : List String) : Finset String :=
  gatherLoop probe ips 0 3

/-- Concrete probe answers for the C1 witness: the second node holds a
configuration, the first times out. -/
def probeW1 : Nat → String → ProbeRes := fun _ x =>
  if x == "10.0.0.6" then .configured ["10.0.0.9:27017"] else .timeout

/-- Concrete probe answers for the C1 witness: every node always fails with
the not-yet-initialized sentinel (code 94). -/
def probeW2 : Nat → String → ProbeRes := fun _ _ =>
  .opFailure (some 94) "NotYetInitialized"

/-- Concrete probe answers for the C1 witness: every node always fails
authentication (no configuration anywhere). -/
def probeW3 : Nat → String → ProbeRes := fun _ _ =>
  .opFailure none "Authentication failed"

/-- Concrete one-member configuration used by witness scenarios. -/
def cfgW : RSConfig := ⟨"rs0", 1, [⟨0, "10.0.0.5:27017"⟩]⟩

/-- Concrete environment used by witness scenarios: no hello answers, every
config read returns `cfgW`, every reconfig attempt is accepted. -/
def envW : UCEnv := ⟨fun _ => .err, fun _ _ => .err, fun _ => some cfgW, fun _ => true⟩

/- ### init_replica and reconfigure_replica_set -/

/-- The driver-level reconfiguration command issued by
`reconfigure_replica_set`: connect directly to `primary_ip` with root
credentials and run `replSetReconfig(config, force=True)`. -/
structure ReconfigCmd where
  target : String
  config : RSConfig
  force : Bool
deriving DecidableEq

/-- Embeds `reconfigure_replica_set` (source lines 385-414): the command it
issues against `primary_ip` always carries `force = True`. -/
def reconfigure_replica_set (primary_ip : String) (config : RSConfig) :
    ReconfigCmd :=
  ⟨primary_ip, config, true⟩

/-- Environment of in-container first-time initiation: whether a container
whose name stem matches the service name exists, and the exit code and
output of the in-container `mongosh rs.initiate` execution. -/
structure InitEnv where
  containerFound : Bool
  execExitCode : Nat
  execOutput : String

/-- Outcome of the initiation phase of `init_replica`. -/
inductive InitResult where
  | noTasks
  | noContainer
  | initiated (cfg : RSConfig)
  | handoff (cmd : ReconfigCmd)
  | initError (msg : String)
deriving DecidableEq

/-- Embeds the initiation phase of `init_replica` (source lines 280-347):
give up when no task ips are known (after the bounded retry preamble), build
the fresh config, pick the first task ip as the bootstrap target, and run
`rs.initiate` inside the matched container.  A non-zero exit raises; when
the output contains "replSetInitiate requires authentication" the failure is
reclassified as redeployment and handed to `reconfigure_replica_set` with
the freshly built config; any other initiation error is only logged. -/
def init_replica (env : InitEnv) (ips : List String) (replicaset_name : String)
    (port : Nat) : InitResult :=
  if ips.isEmpty then .noTasks
  else if !env.containerFound then .noContainer
  else if env.execExitCode = 0 then
    .initiated (create_mongo_config ips replicaset_name port)
  else if substrOf "replSetInitiate requires authentication" env.execOutput then
    .handoff (reconfigure_replica_set (ips.headD "")
      (create_mongo_config ips replicaset_name port))
  else .initError env.execOutput

/-- Concrete initiation environment for the C7 witness: the in-container
initiate fails with the authentication-required error. -/
def envI : InitEnv :=
  ⟨true, 1, "MongoServerError: replSetInitiate requires authentication"⟩

/- ### Watch loop of manage_replica -/

/-- State the Reconciler carries between watch-loop iterations:
`current_member_ips` (KnownMemberIPs) and the last known primary. -/
structure WatchState where
  currentMemberIps : List String
  primaryIp : Option String
deriving DecidableEq

/-- Environment of one watch-loop iteration: the task ips the orchestrator
now reports, the answers available to `update_config`, the hello answers of
the post-iteration primary lookup, and the mongo port. -/
structure TickEnv where
  taskIps : List String
  uc : UCEnv
  helloAfter : String → HelloRes
  port : Nat

/-- Embeds `current_member_ips.symmetric_difference(new_member_ips)` being
non-empty (list model of the two set differences). -/
def symmDiffNonempty (a b : List String) : Bool :=
  !((a.filter (fun x => !(decide (x ∈ b)))).isEmpty
    && (b.filter (fun x => !(decide (x ∈ a)))).isEmpty)

/-- Embeds one iteration of the watch loop of `manage_replica` (source lines
951-958): read the new task-ip set, call `update_config` when the symmetric
difference with `current_member_ips` is non-empty, then set
`current_member_ips = new_member_ips` (unconditionally, whatever
`update_config` did) and re-resolve the primary. -/
def watchTick (env : TickEnv) (s : WatchState) : WatchState × Option UCResult :=
  (⟨env.taskIps, get_primary_ip env.helloAfter env.taskIps⟩,
   if symmDiffNonempty s.currentMemberIps env.taskIps then
     some (update_config env.uc s.primaryIp s.currentMemberIps env.taskIps env.port)
   else none)

/-- True iff a watch iteration issued a reconfiguration that exhausted its
retry budget (the ConfigRejected outcome). -/
def tickRejected (r : Option UCResult) : Bool :=
  match r with
  | some (.rejected _ _ _) => true
  | _ => false

/-- Concrete watch-loop environment for the C6 counterexample: one task ip
was added, the config read succeeds, and every reconfig attempt is refused. -/
def envT : TickEnv :=
  ⟨["10.0.0.5", "10.0.0.6"],
   ⟨fun _ => .err, fun _ _ => .err, fun _ => some cfgW, fun _ => false⟩,
   fun _ => .err, 27017⟩

/- ### Startup wait of the process entry point -/

/-- Embeds the startup wait loop of the entry point (source lines 1010-1018):
`while service_down and attempts > 0: sleep(10); ...; attempts -= 1`, where
`isUp k` is the outcome of the k-th service check (0-based); returns the
final values of `attempts` and `service_down`. -/
def startupRun (isUp : Nat → Bool) : Nat → Nat → Bool → Nat × Bool
  | _, attempts, false => (attempts, false)
  | _, 0, true => (0, true)
  | k, a + 1, true => startupRun isUp (k + 1) a (!(isUp k))

/-- Embeds the post-loop exit test (source lines 1020-1022,
`if attempts <= 0 or not mongo_service: sys.exit(1)`) for the startup budget
of 40 checks; `mongo_service` is always set because the loop body runs at
least once, so the exit triggers exactly when `attempts` reached 0. -/
def startupExits1 (isUp : Nat → Bool) : Bool :=
  (startupRun isUp 0 40 true).1 == 0

/-- Check outcomes where the service first comes fully up on the 40th
(last budgeted) check. -/
def upAt39 : Nat → Bool := fun k => k == 39

/- ### is_service_up -/

/-- An orchestrator task as consumed by the controller: placement node,
desired state, and actual state. -/
structure SwarmTask where
  nodeId : String
  desiredState : String
  state : String
deriving DecidableEq

/-- An orchestrator node: id, availability, and status state. -/
structure SwarmNode where
  nodeId : String
  availability : String
  state : String
deriving DecidableEq

/-- Deployment mode of the service: `Replicated` with a declared replica
count, `Global`, or anything else. -/
inductive ServiceMode where
  | replicated (replicas : Nat)
  | globalMode
  | other
deriving DecidableEq

/-- The mongo service object as consumed by `is_service_up`. -/
structure SwarmService where
  mode : ServiceMode
  tasks : List SwarmTask
deriving DecidableEq

/-- Embeds `get_running_tasks`: tasks whose desired state is "running" (the
API-side filter) and whose actual state equals the desired one. -/
def get_running_tasks (svc : SwarmService) : List SwarmTask :=
  (svc.tasks.filter (fun t => t.desiredState == "running")).filter
    (fun t => t.state == "running")

/-- Embeds `get_assigned_nodes`: the set of node ids over all of the
service's tasks. -/
def get_assigned_nodes (svc : SwarmService) : Finset String :=
  (svc.tasks.map (fun t => t.nodeId)).toFinset

/-- Embeds the active-node set computed by `is_service_up`: availability is
"active" and state is not "down". -/
def active_node_ids (nodes : List SwarmNode) : Finset String :=
  ((nodes.filter (fun n => n.availability == "active" && !(n.state == "down"))).map
    (fun n => n.nodeId)).toFinset

/-- Embeds `is_service_up` (source lines 167-199): `False` for a missing
service; for `Replicated` mode compare the running-task count with the
declared replica count; for `Global` mode compare it with the number of
assigned nodes that are active and not down; `False` for any other mode.
The embedding is a total function: no input raises. -/
def is_service_up (svc : Option SwarmService) (nodes : List SwarmNode) : Bool :=
  match svc with
  | none => false
  | some s =>
    match s.mode with
    | .replicated r => (get_running_tasks s).length == r
    | .globalMode =>
      (get_running_tasks s).length
        == ((active_node_ids nodes) ∩ (get_assigned_nodes s)).card
    | .other => false

/-- Concrete global-mode service for the C10 witness. -/
def svcG : SwarmService := ⟨.globalMode, [⟨"n1", "running", "running"⟩]⟩

/-- Concrete unknown-mode service for the C10 witness. -/
def svcO : SwarmService := ⟨.other, []⟩

/-- Concrete node list for the C10 witness. -/
def nodesW : List SwarmNode := [⟨"n1", "active", "ready"⟩]

/- ### Helper lemmas about the config builder -/

lemma init_le_foldl_max (l : List Nat) (a : Nat) : a ≤ l.foldl Nat.max a := by
  induction l generalizing a with
  | nil => simp
  | cons b t ih => exact le_trans (Nat.le_max_left a b) (ih (Nat.max a b))

lemma mem_le_foldl_max (l : List Nat) : ∀ (a x : Nat), x ∈ l → x ≤ l.foldl Nat.max a := by
  induction l with
  | nil => intro a x hx; cases hx
  | cons b t ih =>
    intro a x hx
    rcases List.mem_cons.1 hx with h | h
    · subst h
      exact le_trans (Nat.le_max_right a x) (init_le_foldl_max t (Nat.max a x))
    · exact ih (Nat.max a b) x h

lemma create_ids (ips : List String) (name : String) (port : Nat) :
    (create_mongo_config ips name port).members.map (fun m => m.memberId)
      = List.range ips.length := by
  unfold create_mongo_config
  simp only [List.map_map]
  have : ((fun m : MemberSpec => m.memberId) ∘
      (fun p : Nat × String =>
        ({ memberId := p.1, host := p.2 ++ ":" ++ toString port } : MemberSpec)))
      = Prod.fst := rfl
  rw [this, List.enum_map_fst]

lemma create_hosts (ips : List String) (name : String) (port : Nat) :
    (create_mongo_config ips name port).members.map (fun m => m.host)
      = ips.map (fun ip => ip ++ ":" ++ toString port) := by
  unfold create_mongo_config
  simp only [List.map_map]
  have : ((fun m : MemberSpec => m.host) ∘
      (fun p : Nat × String =>
        ({ memberId := p.1, host := p.2 ++ ":" ++ toString port } : MemberSpec)))
      = (fun p : Nat × String => p.2 ++ ":" ++ toString port) := rfl
  rw [this]
  have h2 : (fun p : Nat × String => p.2 ++ ":" ++ toString port)
      = (fun ip : String => ip ++ ":" ++ toString port) ∘ Prod.snd := rfl
  rw [h2, ← List.map_map, List.enum_map_snd]

/-- The `if to_remove:` guard of the removal block is redundant: both
branches compute the same filtered list. -/
lemma removeMembers_eq_filter (members : List MemberSpec) (to_remove : List String) :
    removeMembers members to_remove
      = members.filter (fun m => !(decide (hostIp m.host ∈ to_remove))) := by
  unfold removeMembers
  by_cases h : to_remove.isEmpty
  · simp only [h, if_true]
    have hall : ∀ m ∈ members, (!(decide (hostIp m.host ∈ to_remove))) = true := by
      intro m _
      have hne : hostIp m.host ∉ to_remove := by
        intro hmem
        rw [List.isEmpty_iff] at h
        subst h
        cases hmem
      simp [hne]
    exact (List.filter_eq_self.2 hall).symm
  · simp [h]

lemma enum_map_memberId (l : List String) (offset port : Nat) :
    ((l.enum.map (fun p => ({ memberId := offset + p.1, host := p.2 ++ ":" ++ toString port } : MemberSpec))).map
        (fun m => m.memberId))
      = (List.range l.length).map (fun i => offset + i) := by
  simp only [List.map_map]
  have h1 : ((fun m : MemberSpec => m.memberId) ∘
      (fun p : Nat × String => ({ memberId := offset + p.1, host := p.2 ++ ":" ++ toString port } : MemberSpec)))
      = (fun i : Nat => offset + i) ∘ Prod.fst := rfl
  rw [h1, ← List.map_map, List.enum_map_fst]

lemma enum_map_hostField (l : List String) (offset port : Nat) :
    ((l.enum.map (fun p => ({ memberId := offset + p.1, host := p.2 ++ ":" ++ toString port } : MemberSpec))).map
        (fun m => m.host))
      = l.map (fun ip => ip ++ ":" ++ toString port) := by
  simp only [List.map_map]
  have h1 : ((fun m : MemberSpec => m.host) ∘
      (fun p : Nat × String => ({ memberId := offset + p.1, host := p.2 ++ ":" ++ toString port } : MemberSpec)))
      = (fun ip : String => ip ++ ":" ++ toString port) ∘ Prod.snd := rfl
  rw [h1, ← List.map_map, List.enum_map_snd]

lemma removeMembers_sublist (members : List MemberSpec) (to_remove : List String) :
    (removeMembers members to_remove).Sublist members := by
  rw [removeMembers_eq_filter]
  exact List.filter_sublist members

lemma mem_id_lt_nextOffset (ms : List MemberSpec) (m : MemberSpec) (hm : m ∈ ms) :
    m.memberId < nextOffset ms := by
  cases ms with
  | nil => cases hm
  | cons a t =>
    show m.memberId < ((a :: t).map (fun m => m.memberId)).foldl Nat.max 0 + 1
    have : m.memberId ∈ (a :: t).map (fun m => m.memberId) :=
      List.mem_map_of_mem _ hm
    exact Nat.lt_succ_of_le (mem_le_foldl_max _ 0 _ this)

lemma nodup_appendNew (ms1 : List MemberSpec) (to_add : List String) (port : Nat)
    (h : (ms1.map (fun m => m.memberId)).Nodup) :
    ((appendNew ms1 to_add port).map (fun m => m.memberId)).Nodup := by
  unfold appendNew
  by_cases ha : to_add.isEmpty
  · simpa [ha] using h
  · simp only [if_neg ha, List.map_append]
    rw [enum_map_memberId]
    refine List.Nodup.append h ?_ ?_
    · exact (List.nodup_range _).map (fun i j hij => Nat.add_left_cancel hij)
    · intro x hx hx2
      rcases List.mem_map.1 hx with ⟨m, hm, rfl⟩
      rcases List.mem_map.1 hx2 with ⟨i, _, hieq⟩
      have hlt : m.memberId < nextOffset ms1 := mem_id_lt_nextOffset ms1 m hm
      omega

lemma nodup_mutateConfig (cfg : RSConfig) (rm ad : List String) (port : Nat)
    (h : (cfg.members.map (fun m => m.memberId)).Nodup) :
    ((mutateConfig cfg rm ad port).members.map (fun m => m.memberId)).Nodup := by
  show ((appendNew (removeMembers cfg.members rm) ad port).map
    (fun m => m.memberId)).Nodup
  refine nodup_appendNew _ _ _ ?_
  exact h.sublist ((removeMembers_sublist cfg.members rm).map _)

lemma applySeq_nodup (port : Nat) :
    ∀ (steps : List (List String × List String)) (cfg : RSConfig),
      (cfg.members.map (fun m => m.memberId)).Nodup →
      ((applySeq cfg steps port).members.map (fun m => m.memberId)).Nodup := by
  intro steps
  induction steps with
  | nil => intro cfg h; exact h
  | cons s t ih =>
    intro cfg h
    exact ih _ (nodup_mutateConfig cfg s.1 s.2 port h)

/- ### Lemmas about update_config's force flag and connection target -/

lemma get_primary_ip_mem (hello : String → HelloRes) (ips : List String)
    (p : String) (h : get_primary_ip hello ips = some p) : p ∈ ips :=
  List.mem_of_find?_eq_some h

lemma waitForPrimary_mem (hw : Nat → String → HelloRes) (new_ips : List String) :
    ∀ (f i : Nat) (p : String), waitForPrimary hw new_ips i f = some p → p ∈ new_ips := by
  intro f
  induction f with
  | zero => intro i p h; cases h
  | succ f ih =>
    intro i p h
    unfold waitForPrimary at h
    revert h
    cases hg : get_primary_ip (hw i) new_ips with
    | none => intro h; exact ih (i + 1) p h
    | some q => intro h; cases h; exact get_primary_ip_mem _ _ _ hg

lemma electFallback_mem (env : UCEnv) (new_ips to_add : List String) (p : String)
    (h : electFallback env new_ips to_add = some p) : p ∈ new_ips := by
  unfold electFallback at h
  set pE := if allNodesUninitialized env.helloCheck new_ips && !new_ips.isEmpty then none
    else waitForPrimary env.helloWait new_ips 0 6 with hpE
  revert h
  cases hE : pE with
  | some q =>
    intro h
    cases h
    rw [hpE] at hE
    revert hE
    split
    · intro hE; cases hE
    · intro hE; exact waitForPrimary_mem _ _ 6 0 p hE
  | none =>
    intro h
    revert h
    cases hf : new_ips.filter (fun x => !(decide (x ∈ to_add))) with
    | cons o tl =>
      intro h
      cases h
      have : p ∈ new_ips.filter (fun x => !(decide (x ∈ to_add))) := by
        rw [hf]; exact List.mem_cons_self _ _
      exact List.mem_of_mem_filter this
    | nil =>
      intro h
      cases new_ips with
      | nil => cases h
      | cons a tl => cases h; exact List.mem_cons_self _ _

lemma mem_toRemoveL_not_mem_new (current new : List String) (x : String)
    (h : x ∈ toRemoveL current new) : x ∉ new := by
  have := (List.mem_filter.1 h).2
  simpa using this

lemma ucTarget_not_in_remove (env : UCEnv) (p0 : Option String)
    (current new to_add : List String) (t : String)
    (h : ucTarget env p0 new (toRemoveL current new) to_add = some t) :
    t ∉ toRemoveL current new := by
  intro hmem
  have hnew : t ∉ new := mem_toRemoveL_not_mem_new current new t hmem
  cases p0 with
  | none =>
    exact hnew (electFallback_mem env new to_add t h)
  | some p =>
    have h2 : (if decide (p ∈ toRemoveL current new) = true
        then electFallback env new to_add else some p) = some t := h
    by_cases hp : p ∈ toRemoveL current new
    · rw [if_pos (by simpa using hp)] at h2
      exact hnew (electFallback_mem env new to_add t h2)
    · rw [if_neg (by simpa using hp)] at h2
      cases h2
      exact hp hmem

lemma update_config_inv (env : UCEnv) (p0 : Option String) (current new : List String)
    (port : Nat) (t : String) (cfg : RSConfig) (f : Bool)
    (h : update_config env p0 current new port = .applied t cfg f ∨
      update_config env p0 current new port = .rejected t cfg f) :
    ucTarget env p0 new (toRemoveL current new) (toAddL current new) = some t ∧
    f = ucForce p0 (toRemoveL current new) (toAddL current new) := by
  rcases h with h | h <;>
  · rw [update_config] at h
    split at h
    · exact absurd h (by simp)
    · split at h
      · exact absurd h (by simp)
      · rename_i target htgt
        split at h
        · exact absurd h (by simp)
        · rename_i cfg2 hread
          split at h <;>
            first
              | (injection h with h1 h2 h3; exact ⟨h1 ▸ htgt, h3.symm⟩)
              | exact absurd h (by simp)

lemma ucForce_iff (p0 : Option String) (rm ad : List String) :
    ucForce p0 rm ad = true ↔
      (rm.length > 1 ∨ ad.length > 1 ∨ (∃ p, p0 = some p ∧ p ∈ rm) ∨ p0 = none) := by
  cases p0 with
  | none => simp [ucForce]
  | some p =>
    by_cases hp : p ∈ rm
    · simp only [ucForce, if_pos (by simpa using hp)]
      simp [hp]
    · simp only [ucForce, if_neg (by simpa using hp)]
      simp [hp]

/- ### Lemmas about gather_configured_members_ips -/

lemma gatherLoop_succ (probe : Nat → String → ProbeRes) (ips : List String)
    (attempt f : Nat) :
    gatherLoop probe ips attempt (f + 1)
      = if (gatherAttempt (probe attempt) ips 0).found then
          (gatherAttempt (probe attempt) ips 0).ips
        else if (gatherAttempt (probe attempt) ips 0).nyi = ips.length ∧ 0 < f then
          gatherLoop probe ips (attempt + 1) f
        else
          (gatherAttempt (probe attempt) ips 0).ips := rfl

lemma gatherAttempt_cons_configured (probe : String → ProbeRes) (t : String)
    (rest : List String) (cnt : Nat) (hosts : List String)
    (h : probe t = .configured hosts) :
    gatherAttempt probe (t :: rest) cnt
      = ⟨(hosts.map hostIp).toFinset, true, cnt⟩ := by
  simp only [gatherAttempt, h]

lemma gatherAttempt_cons_timeout (probe : String → ProbeRes) (t : String)
    (rest : List String) (cnt : Nat) (h : probe t = .timeout) :
    gatherAttempt probe (t :: rest) cnt = gatherAttempt probe rest cnt := by
  simp only [gatherAttempt, h]

lemma gatherAttempt_cons_opFailure (probe : String → ProbeRes) (t : String)
    (rest : List String) (cnt : Nat) (c : Option Int) (m : String)
    (h : probe t = .opFailure c m) :
    gatherAttempt probe (t :: rest) cnt
      = if ((c == some 94) || substrOf "NotYetInitialized" m) then
          gatherAttempt probe rest (cnt + 1)
        else gatherAttempt probe rest cnt := by
  simp only [gatherAttempt, h]

lemma gatherAttempt_not_found_ips (probe : String → ProbeRes) :
    ∀ (l : List String) (cnt : Nat), (gatherAttempt probe l cnt).found = false →
      (gatherAttempt probe l cnt).ips = ∅ := by
  intro l
  induction l with
  | nil => intro cnt _; rfl
  | cons t rest ih =>
    intro cnt h
    cases hp : probe t with
    | configured hosts =>
      rw [gatherAttempt_cons_configured probe t rest cnt hosts hp] at h
      simp at h
    | timeout =>
      rw [gatherAttempt_cons_timeout probe t rest cnt hp] at h ⊢
      exact ih cnt h
    | opFailure c m =>
      rw [gatherAttempt_cons_opFailure probe t rest cnt c m hp] at h ⊢
      by_cases hc : ((c == some 94) || substrOf "NotYetInitialized" m) = true
      · rw [if_pos hc] at h ⊢; exact ih _ h
      · rw [if_neg hc] at h ⊢; exact ih _ h

lemma gatherAttempt_skip (probe : String → ProbeRes) (pre : List String)
    (hpre : ∀ x ∈ pre, isConfigured (probe x) = false) :
    ∀ (l : List String) (cnt : Nat),
      ∃ c2, gatherAttempt probe (pre ++ l) cnt = gatherAttempt probe l c2 := by
  induction pre with
  | nil => intro l cnt; exact ⟨cnt, rfl⟩
  | cons t rest ih =>
    intro l cnt
    have ht := hpre t (List.mem_cons_self t rest)
    have hrest : ∀ x ∈ rest, isConfigured (probe x) = false := by
      intro x hx; exact hpre x (List.mem_cons_of_mem t hx)
    rw [List.cons_append]
    cases hp : probe t with
    | configured hosts => rw [hp] at ht; simp [isConfigured] at ht
    | timeout =>
      rw [gatherAttempt_cons_timeout probe t (rest ++ l) cnt hp]
      exact ih hrest l cnt
    | opFailure c m =>
      rw [gatherAttempt_cons_opFailure probe t (rest ++ l) cnt c m hp]
      by_cases hc : ((c == some 94) || substrOf "NotYetInitialized" m) = true
      · rw [if_pos hc]; exact ih hrest l (cnt + 1)
      · rw [if_neg hc]; exact ih hrest l cnt

lemma gatherAttempt_found (probe : String → ProbeRes) (pre post : List String)
    (t : String) (hosts : List String) (cnt : Nat)
    (hpre : ∀ x ∈ pre, isConfigured (probe x) = false)
    (ht : probe t = .configured hosts) :
    (gatherAttempt probe (pre ++ t :: post) cnt).found = true ∧
    (gatherAttempt probe (pre ++ t :: post) cnt).ips = (hosts.map hostIp).toFinset := by
  obtain ⟨c2, heq⟩ := gatherAttempt_skip probe pre hpre (t :: post) cnt
  rw [heq, gatherAttempt_cons_configured probe t post c2 hosts ht]
  exact ⟨rfl, rfl⟩

lemma gatherAttempt_not_found_of (probe : String → ProbeRes) :
    ∀ (l : List String), (∀ x ∈ l, isConfigured (probe x) = false) →
      ∀ cnt, (gatherAttempt probe l cnt).found = false := by
  intro l
  induction l with
  | nil => intro _ cnt; rfl
  | cons t rest ih =>
    intro h cnt
    have ht := h t (List.mem_cons_self t rest)
    have hrest : ∀ x ∈ rest, isConfigured (probe x) = false := by
      intro x hx; exact h x (List.mem_cons_of_mem t hx)
    cases hp : probe t with
    | configured hosts => rw [hp] at ht; simp [isConfigured] at ht
    | timeout =>
      rw [gatherAttempt_cons_timeout probe t rest cnt hp]
      exact ih hrest cnt
    | opFailure c m =>
      rw [gatherAttempt_cons_opFailure probe t rest cnt c m hp]
      by_cases hc : ((c == some 94) || substrOf "NotYetInitialized" m) = true
      · rw [if_pos hc]; exact ih hrest (cnt + 1)
      · rw [if_neg hc]; exact ih hrest cnt

lemma gatherAttempt_all_nyi (probe : String → ProbeRes) :
    ∀ (l : List String), (∀ x ∈ l, ∃ m, probe x = .opFailure (some 94) m) →
      ∀ cnt, (gatherAttempt probe l cnt).nyi = cnt + l.length := by
  intro l
  induction l with
  | nil => intro _ cnt; rfl
  | cons t rest ih =>
    intro h cnt
    obtain ⟨m, hm⟩ := h t (List.mem_cons_self t rest)
    have hrest : ∀ x ∈ rest, ∃ m2, probe x = .opFailure (some 94) m2 := by
      intro x hx; exact h x (List.mem_cons_of_mem t hx)
    rw [gatherAttempt_cons_opFailure probe t rest cnt (some 94) m hm]
    have hc : (((some 94 : Option Int) == some 94) || substrOf "NotYetInitialized" m) = true := by
      simp
    rw [if_pos hc, ih hrest (cnt + 1)]
    simp [List.length_cons]
    omega

lemma nyi_not_configured (probe : String → ProbeRes) (x : String)
    (h : ∃ m, probe x = .opFailure (some 94) m) : isConfigured (probe x) = false := by
  obtain ⟨m, hm⟩ := h
  rw [hm]
  rfl

lemma gatherLoop_no_config (probe : Nat → String → ProbeRes) (ips : List String)
    (h : ∀ (a : Nat), ∀ x ∈ ips, isConfigured (probe a x) = false) :
    ∀ (f attempt : Nat), gatherLoop probe ips attempt f = ∅ := by
  intro f
  induction f with
  | zero => intro attempt; rfl
  | succ f ih =>
    intro attempt
    have hf : (gatherAttempt (probe attempt) ips 0).found = false :=
      gatherAttempt_not_found_of (probe attempt) ips (h attempt) 0
    have hi : (gatherAttempt (probe attempt) ips 0).ips = ∅ :=
      gatherAttempt_not_found_ips _ _ _ hf
    rw [gatherLoop_succ, if_neg (by simp [hf])]
    by_cases hc : ((gatherAttempt (probe attempt) ips 0).nyi = ips.length ∧ 0 < f)
    · rw [if_pos hc]; exact ih (attempt + 1)
    · rw [if_neg hc]; exact hi

/- ### Lemmas about the startup wait -/

lemma startupRun_down_false (isUp : Nat → Bool) (k a : Nat) :
    startupRun isUp k a false = (a, false) := by
  cases a <;> rfl

lemma startupRun_step (isUp : Nat → Bool) (k a : Nat) :
    startupRun isUp k (a + 1) true = startupRun isUp (k + 1) a (!(isUp k)) := rfl

lemma startupRun_fst_zero (isUp : Nat → Bool) :
    ∀ (a k : Nat), ((startupRun isUp k a true).1 = 0 ↔
      ∀ j, j + 1 < a → isUp (k + j) = false) := by
  intro a
  induction a with
  | zero =>
    intro k
    constructor
    · intro _ j hj; exact absurd hj (by omega)
    · intro _; rfl
  | succ a ih =>
    intro k
    rw [startupRun_step]
    cases hk : isUp k with
    | true =>
      rw [show (!true) = false from rfl, startupRun_down_false]
      constructor
      · intro h0 j hj
        have ha : a = 0 := h0
        exact absurd hj (by omega)
      · intro hall
        by_contra hne
        have ha : 0 < a := by
          rcases Nat.eq_zero_or_pos a with h | h
          · exact absurd h (by simpa using hne)
          · exact h
        have := hall 0 (by omega)
        rw [Nat.add_zero, hk] at this
        cases this
    | false =>
      rw [show (!false) = true from rfl, ih (k + 1)]
      constructor
      · intro hall j hj
        cases j with
        | zero => simpa using hk
        | succ j2 =>
          have := hall j2 (by omega)
          rwa [show k + 1 + j2 = k + (j2 + 1) from by omega] at this
      · intro hall j hj
        have := hall (j + 1) (by omega)
        rwa [show k + (j + 1) = k + 1 + j from by omega] at this

/-- C3: the configuration mutation performed by `update_config` drops exactly
the members whose host-ip is in `toRemove`, appends one member per ip of
`toAdd` with ids `max(remaining)+1, +2, ...` (starting at `0` when no member
remains), bumps `version` by one, and keeps the set name and the surviving
members (their ids and hosts) unchanged. -/
theorem c3_mutate_config (cfg : RSConfig) (to_remove to_add : List String)
    (port : Nat) :
    (mutateConfig cfg to_remove to_add port).setName = cfg.setName ∧
    (mutateConfig cfg to_remove to_add port).version = cfg.version + 1 ∧
    ((mutateConfig cfg to_remove to_add port).members.take
        (cfg.members.filter (fun m => !(decide (hostIp m.host ∈ to_remove)))).length
      = cfg.members.filter (fun m => !(decide (hostIp m.host ∈ to_remove)))) ∧
    (((mutateConfig cfg to_remove to_add port).members.drop
        (cfg.members.filter (fun m => !(decide (hostIp m.host ∈ to_remove)))).length).map
        (fun m => m.memberId)
      = (List.range to_add.length).map
        (fun i => nextOffset
          (cfg.members.filter (fun m => !(decide (hostIp m.host ∈ to_remove)))) + i)) ∧
    (((mutateConfig cfg to_remove to_add port).members.drop
        (cfg.members.filter (fun m => !(decide (hostIp m.host ∈ to_remove)))).length).map
        (fun m => m.host)
      = to_add.map (fun ip => ip ++ ":" ++ toString port)) := by
  have hms : (mutateConfig cfg to_remove to_add port).members
      = appendNew (removeMembers cfg.members to_remove) to_add port := rfl
  refine ⟨rfl, rfl, ?_, ?_, ?_⟩ <;>
    rw [hms, ← removeMembers_eq_filter] <;>
    unfold appendNew <;>
    by_cases ha : to_add.isEmpty
  · rw [List.isEmpty_iff] at ha; subst ha; simp
  · simp only [if_neg ha]; rw [List.take_left]
  · rw [List.isEmpty_iff] at ha; subst ha; simp
  · simp only [if_neg ha]; rw [List.drop_left, enum_map_memberId]
  · rw [List.isEmpty_iff] at ha; subst ha; simp
  · simp only [if_neg ha]; rw [List.drop_left, enum_map_hostField]

/-- C5: for a non-empty ordered ip sequence, the fresh configuration built by
`create_mongo_config` for first-time initiation has members with sequential
ids `0..n-1` in the given ip order, hosts `"ip:port"`, the given set name as
`_id`, and `version = 1`. -/
theorem c5_fresh_config (ips : List String) (name : String) (port : Nat)
    (_hne : ips ≠ []) :
    (create_mongo_config ips name port).setName = name ∧
    (create_mongo_config ips name port).version = 1 ∧
    (create_mongo_config ips name port).members.map (fun m => m.memberId)
      = List.range ips.length ∧
    (create_mongo_config ips name port).members.map (fun m => m.host)
      = ips.map (fun ip => ip ++ ":" ++ toString port) :=
  ⟨rfl, rfl, create_ids ips name port, create_hosts ips name port⟩

/-- Witness for C5 at the spec's scenario S1 input. -/
theorem c5_witness :
    (["10.0.0.5", "10.0.0.6", "10.0.0.7"] : List String) ≠ [] ∧
    ((create_mongo_config ["10.0.0.5", "10.0.0.6", "10.0.0.7"] "rs0" 27017).setName = "rs0" ∧
     (create_mongo_config ["10.0.0.5", "10.0.0.6", "10.0.0.7"] "rs0" 27017).version = 1 ∧
     (create_mongo_config ["10.0.0.5", "10.0.0.6", "10.0.0.7"] "rs0" 27017).members.map
        (fun m => m.memberId) = List.range (["10.0.0.5", "10.0.0.6", "10.0.0.7"] : List String).length ∧
     (create_mongo_config ["10.0.0.5", "10.0.0.6", "10.0.0.7"] "rs0" 27017).members.map
        (fun m => m.host)
       = (["10.0.0.5", "10.0.0.6", "10.0.0.7"] : List String).map
          (fun ip => ip ++ ":" ++ toString 27017)) :=
  ⟨by decide, c5_fresh_config ["10.0.0.5", "10.0.0.6", "10.0.0.7"] "rs0" 27017 (by decide)⟩

/-- C4 counterexample: starting from a fresh two-member configuration, member
id 1 is assigned to host `10.0.0.6:27017`; after removing that member the id
is gone; a subsequent addition of `10.0.0.7` reuses id 1 for the new,
different host.  So `update_config`'s id allocation does reuse a previously
assigned-and-removed member id. -/
theorem c4_counterexample :
    (⟨1, "10.0.0.6:27017"⟩ : MemberSpec) ∈
      (create_mongo_config ["10.0.0.5", "10.0.0.6"] "rs0" 27017).members ∧
    ((mutateConfig (create_mongo_config ["10.0.0.5", "10.0.0.6"] "rs0" 27017)
        ["10.0.0.6"] [] 27017).members.all (fun m => m.memberId != 1)) = true ∧
    (⟨1, "10.0.0.7:27017"⟩ : MemberSpec) ∈
      (mutateConfig (mutateConfig (create_mongo_config ["10.0.0.5", "10.0.0.6"] "rs0" 27017)
        ["10.0.0.6"] [] 27017) [] ["10.0.0.7"] 27017).members := by
  decide

/-- C4 amended: across any sequence of mutations from a fresh configuration,
the ids of the current members are always pairwise distinct, and a member
that survives a mutation keeps its id and host; ids freed by removal may
however be reassigned later (when no member remains after removal, or after
the member holding the maximum id has been removed). -/
theorem c4_id_discipline :
    (∀ (ips : List String) (name : String) (port : Nat)
        (steps : List (List String × List String)),
      ((applySeq (create_mongo_config ips name port) steps port).members.map
        (fun m => m.memberId)).Nodup) ∧
    (∀ (cfg : RSConfig) (rm ad : List String) (port : Nat) (m : MemberSpec),
      m ∈ cfg.members → hostIp m.host ∉ rm →
      m ∈ (mutateConfig cfg rm ad port).members) := by
  constructor
  · intro ips name port steps
    refine applySeq_nodup port steps _ ?_
    rw [create_ids]
    exact List.nodup_range _
  · intro cfg rm ad port m hm hnr
    show m ∈ appendNew (removeMembers cfg.members rm) ad port
    have h1 : m ∈ removeMembers cfg.members rm := by
      rw [removeMembers_eq_filter]
      refine List.mem_filter.2 ⟨hm, ?_⟩
      simp [hnr]
    unfold appendNew
    by_cases ha : ad.isEmpty
    · simpa [ha] using h1
    · simp only [if_neg ha]
      exact List.mem_append_left _ h1

/-- Witness for C4's amended theorem at a concrete surviving member. -/
theorem c4_witness :
    (⟨0, "10.0.0.5:27017"⟩ : MemberSpec) ∈
      (⟨"rs0", 1, [⟨0, "10.0.0.5:27017"⟩]⟩ : RSConfig).members ∧
    hostIp "10.0.0.5:27017" ∉ (["10.0.0.9"] : List String) ∧
    (⟨0, "10.0.0.5:27017"⟩ : MemberSpec) ∈
      (mutateConfig ⟨"rs0", 1, [⟨0, "10.0.0.5:27017"⟩]⟩ ["10.0.0.9"] [] 27017).members :=
  ⟨by decide, by decide,
    c4_id_discipline.2 ⟨"rs0", 1, [⟨0, "10.0.0.5:27017"⟩]⟩ ["10.0.0.9"] [] 27017
      ⟨0, "10.0.0.5:27017"⟩ (by decide) (by decide)⟩

/-- C2: whenever `update_config` issues a reconfig command (accepted or
rejected), its `force` flag is true exactly when more than one member is
being removed, or more than one added, or the known primary is in the
removal set, or the primary is unknown; in particular a single-member
addition with a known surviving primary is issued with `force = false`. -/
theorem c2_force_flag (env : UCEnv) (p0 : Option String) (current new : List String)
    (port : Nat) (t : String) (cfg : RSConfig) (f : Bool)
    (_hc : current.Nodup) (_hn : new.Nodup)
    (h : update_config env p0 current new port = .applied t cfg f ∨
      update_config env p0 current new port = .rejected t cfg f) :
    (f = true ↔ ((toRemoveL current new).length > 1 ∨ (toAddL current new).length > 1 ∨
      (∃ p, p0 = some p ∧ p ∈ toRemoveL current new) ∨ p0 = none)) ∧
    (toRemoveL current new = [] → (toAddL current new).length = 1 →
      (∃ p, p0 = some p) → f = false) := by
  obtain ⟨-, hf⟩ := update_config_inv env p0 current new port t cfg f h
  subst hf
  refine ⟨ucForce_iff p0 _ _, ?_⟩
  intro hrm had ⟨p, hp⟩
  subst hp
  cases hforce : ucForce (some p) (toRemoveL current new) (toAddL current new)
  · rfl
  · exfalso
    rcases (ucForce_iff (some p) _ _).1 hforce with h1 | h1 | ⟨q, hq1, hq2⟩ | h1
    · rw [hrm] at h1; simp at h1
    · omega
    · rw [hrm] at hq2; cases hq2
    · cases h1

/-- Witness for C2: a single-member scale-out with a known primary is applied
with `force = false`. -/
theorem c2_witness :
    (["10.0.0.5"] : List String).Nodup ∧
    (["10.0.0.5", "10.0.0.6"] : List String).Nodup ∧
    update_config envW (some "10.0.0.5") ["10.0.0.5"] ["10.0.0.5", "10.0.0.6"] 27017
      = .applied "10.0.0.5"
        (mutateConfig cfgW (toRemoveL ["10.0.0.5"] ["10.0.0.5", "10.0.0.6"])
          (toAddL ["10.0.0.5"] ["10.0.0.5", "10.0.0.6"]) 27017) false ∧
    ((false = true) ↔
      ((toRemoveL ["10.0.0.5"] ["10.0.0.5", "10.0.0.6"]).length > 1 ∨
       (toAddL ["10.0.0.5"] ["10.0.0.5", "10.0.0.6"]).length > 1 ∨
       (∃ p, (some "10.0.0.5" : Option String) = some p ∧
          p ∈ toRemoveL ["10.0.0.5"] ["10.0.0.5", "10.0.0.6"]) ∨
       (some "10.0.0.5" : Option String) = none)) :=
  ⟨by decide, by decide, by decide,
    (c2_force_flag envW (some "10.0.0.5") ["10.0.0.5"] ["10.0.0.5", "10.0.0.6"] 27017
      "10.0.0.5" (mutateConfig cfgW (toRemoveL ["10.0.0.5"] ["10.0.0.5", "10.0.0.6"])
        (toAddL ["10.0.0.5"] ["10.0.0.5", "10.0.0.6"]) 27017) false
      (by decide) (by decide) (Or.inl (by decide))).1⟩

/-- C9: the ip to which `update_config` finally sends the reconfig command is
never a member of the removal set `toRemove = currentIps \ newIps`: when the
prior primary is being removed or is unknown, the target is re-elected from
or deterministically chosen out of the new ip set, which is disjoint from
`toRemove`. -/
theorem c9_target_survives (env : UCEnv) (p0 : Option String) (current new : List String)
    (port : Nat) (t : String) (cfg : RSConfig) (f : Bool)
    (h : update_config env p0 current new port = .applied t cfg f ∨
      update_config env p0 current new port = .rejected t cfg f) :
    t ∉ toRemoveL current new := by
  obtain ⟨ht, -⟩ := update_config_inv env p0 current new port t cfg f h
  exact ucTarget_not_in_remove env p0 current new (toAddL current new) t ht

/-- Witness for C9: a scale-in that keeps the primary reconfigures through a
surviving member. -/
theorem c9_witness :
    update_config envW (some "10.0.0.5") ["10.0.0.5", "10.0.0.6"] ["10.0.0.5"] 27017
      = .applied "10.0.0.5"
        (mutateConfig cfgW (toRemoveL ["10.0.0.5", "10.0.0.6"] ["10.0.0.5"])
          (toAddL ["10.0.0.5", "10.0.0.6"] ["10.0.0.5"]) 27017) false ∧
    "10.0.0.5" ∉ toRemoveL ["10.0.0.5", "10.0.0.6"] ["10.0.0.5"] :=
  ⟨by decide,
    c9_target_survives envW (some "10.0.0.5") ["10.0.0.5", "10.0.0.6"] ["10.0.0.5"] 27017
      "10.0.0.5" (mutateConfig cfgW (toRemoveL ["10.0.0.5", "10.0.0.6"] ["10.0.0.5"])
        (toAddL ["10.0.0.5", "10.0.0.6"] ["10.0.0.5"]) 27017) false (Or.inl (by decide))⟩

/-- C1: on a reconciliation tick, `gather_configured_members_ips` probes the
task ips in order and (i) the member-ip set of the first ip returning a
configuration is the result, regardless of what later probes would answer;
(ii) when every probe across the 3-attempt retry window fails with the
not-yet-initialized sentinel (code 94), the result is the empty set; and
(iii) per-node auth failures and timeouts are skipped, never fail the tick,
and leave the result empty when no configuration is found anywhere. -/
theorem c1_membership_probe :
    (∀ (probe : Nat → String → ProbeRes) (pre post : List String)
        (t : String) (hosts : List String),
      (∀ x ∈ pre, isConfigured (probe 0 x) = false) →
      probe 0 t = .configured hosts →
      gather_configured_members_ips probe (pre ++ t :: post)
        = (hosts.map hostIp).toFinset) ∧
    (∀ (probe : Nat → String → ProbeRes) (ips : List String),
      (∀ a, a < 3 → ∀ x ∈ ips, ∃ m, probe a x = .opFailure (some 94) m) →
      gather_configured_members_ips probe ips = ∅) ∧
    (∀ (probe : Nat → String → ProbeRes) (ips : List String),
      (∀ (a : Nat) (x : String), isConfigured (probe a x) = false) →
      gather_configured_members_ips probe ips = ∅) := by
  refine ⟨?_, ?_, ?_⟩
  · intro probe pre post t hosts hpre ht
    have hfound := gatherAttempt_found (probe 0) pre post t hosts 0 hpre ht
    show gatherLoop probe (pre ++ t :: post) 0 (2 + 1) = (hosts.map hostIp).toFinset
    rw [gatherLoop_succ, if_pos hfound.1]
    exact hfound.2
  · intro probe ips h
    have hnc : ∀ a, a < 3 → ∀ x ∈ ips, isConfigured (probe a x) = false := by
      intro a ha x hx
      exact nyi_not_configured (probe a) x (h a ha x hx)
    have hstep : ∀ a, a < 3 →
        (gatherAttempt (probe a) ips 0).found = false ∧
        (gatherAttempt (probe a) ips 0).nyi = ips.length := by
      intro a ha
      refine ⟨gatherAttempt_not_found_of (probe a) ips (hnc a ha) 0, ?_⟩
      have := gatherAttempt_all_nyi (probe a) ips (h a ha) 0
      simpa using this
    obtain ⟨hf0, hn0⟩ := hstep 0 (by omega)
    obtain ⟨hf1, hn1⟩ := hstep 1 (by omega)
    obtain ⟨hf2, hn2⟩ := hstep 2 (by omega)
    show gatherLoop probe ips 0 (2 + 1) = ∅
    rw [gatherLoop_succ, if_neg (by simp [hf0]), if_pos ⟨hn0, by omega⟩]
    show gatherLoop probe ips 1 (1 + 1) = ∅
    rw [gatherLoop_succ, if_neg (by simp [hf1]), if_pos ⟨hn1, by omega⟩]
    show gatherLoop probe ips 2 (0 + 1) = ∅
    rw [gatherLoop_succ, if_neg (by simp [hf2]), if_neg (by simp)]
    exact gatherAttempt_not_found_ips _ _ _ hf2
  · intro probe ips h
    have hall : ∀ a, ∀ x ∈ ips, isConfigured (probe a x) = false :=
      fun a x _ => h a x
    exact gatherLoop_no_config probe ips hall 3 0

/-- Witness for C1 on concrete probe environments: a second-node
configuration wins over a first-node timeout; uniform code-94 answers give
the empty set; uniform auth failures give the empty set. -/
theorem c1_witness :
    gather_configured_members_ips probeW1 ["10.0.0.5", "10.0.0.6"]
      = ((["10.0.0.9:27017"].map hostIp).toFinset) ∧
    gather_configured_members_ips probeW2 ["10.0.0.5"] = ∅ ∧
    gather_configured_members_ips probeW3 ["10.0.0.5"] = ∅ :=
  ⟨c1_membership_probe.1 probeW1 ["10.0.0.5"] [] "10.0.0.6" ["10.0.0.9:27017"]
      (by decide) (by decide),
   c1_membership_probe.2.1 probeW2 ["10.0.0.5"]
      (fun a _ x _ => ⟨"NotYetInitialized", rfl⟩),
   c1_membership_probe.2.2 probeW3 ["10.0.0.5"]
      (fun a x => rfl)⟩

/-- C7: when in-container first-time initiation fails with the
authentication-required error, `init_replica` reclassifies the situation as
redeployment and hands off to `reconfigure_replica_set`, which issues the
driver-level reconfig with `force = true` against the chosen bootstrap ip
(the first task ip) using the freshly built configuration; a clean exit
initiates normally, and no other initiation error triggers the handoff. -/
theorem c7_redeploy_handoff (env : InitEnv) (ips : List String) (name : String)
    (port : Nat) (hne : ips ≠ []) (hcf : env.containerFound = true) :
    (env.execExitCode ≠ 0 →
      substrOf "replSetInitiate requires authentication" env.execOutput = true →
      init_replica env ips name port
          = .handoff (reconfigure_replica_set (ips.headD "")
              (create_mongo_config ips name port)) ∧
        (reconfigure_replica_set (ips.headD "")
          (create_mongo_config ips name port)).force = true) ∧
    (env.execExitCode ≠ 0 →
      substrOf "replSetInitiate requires authentication" env.execOutput = false →
      ∀ cmd, init_replica env ips name port ≠ .handoff cmd) ∧
    (env.execExitCode = 0 →
      init_replica env ips name port = .initiated (create_mongo_config ips name port)) := by
  have hie : ips.isEmpty = false := by
    cases ips with
    | nil => exact absurd rfl hne
    | cons a l => rfl
  refine ⟨?_, ?_, ?_⟩
  · intro hexit hsub
    unfold init_replica
    rw [if_neg (by simp [hie]), if_neg (by simp [hcf]), if_neg hexit, if_pos hsub]
    exact ⟨rfl, rfl⟩
  · intro hexit hsub cmd
    unfold init_replica
    rw [if_neg (by simp [hie]), if_neg (by simp [hcf]), if_neg hexit,
      if_neg (by simp [hsub])]
    simp
  · intro hexit
    unfold init_replica
    rw [if_neg (by simp [hie]), if_neg (by simp [hcf]), if_pos hexit]

/-- Witness for C7: a concrete failed initiate whose output carries the
authentication-required message is handed off with `force = true`. -/
theorem c7_witness :
    (["10.0.0.5", "10.0.0.6"] : List String) ≠ [] ∧
    envI.containerFound = true ∧
    envI.execExitCode ≠ 0 ∧
    substrOf "replSetInitiate requires authentication" envI.execOutput = true ∧
    init_replica envI ["10.0.0.5", "10.0.0.6"] "rs0" 27017
      = .handoff (reconfigure_replica_set "10.0.0.5"
          (create_mongo_config ["10.0.0.5", "10.0.0.6"] "rs0" 27017)) ∧
    (reconfigure_replica_set "10.0.0.5"
      (create_mongo_config ["10.0.0.5", "10.0.0.6"] "rs0" 27017)).force = true :=
  ⟨by decide, rfl, by decide, by decide,
    ((c7_redeploy_handoff envI ["10.0.0.5", "10.0.0.6"] "rs0" 27017
        (by decide) rfl).1 (by decide) (by decide)).1,
    ((c7_redeploy_handoff envI ["10.0.0.5", "10.0.0.6"] "rs0" 27017
        (by decide) rfl).1 (by decide) (by decide)).2⟩

/-- C6 counterexample: a watch iteration whose reconfiguration is rejected
after exhausting its 3 retries still overwrites `current_member_ips` with
the new task-ip set, contradicting the claim that KnownMemberIPs is not
mutated on a ConfigRejected tick. -/
theorem c6_counterexample :
    tickRejected (watchTick envT ⟨["10.0.0.5"], some "10.0.0.5"⟩).2 = true ∧
    (watchTick envT ⟨["10.0.0.5"], some "10.0.0.5"⟩).1.currentMemberIps
      ≠ (["10.0.0.5"] : List String) :=
  ⟨by decide, by decide⟩

/-- C6 amended: at the end of every watch-loop iteration `manage_replica`
sets `current_member_ips` to the freshly observed task-ip set and re-resolves
the primary over it, regardless of whether a reconfiguration was attempted
or of its outcome (in particular also after a rejected reconfiguration). -/
theorem c6_watch_state_update (env : TickEnv) (s : WatchState) :
    ((watchTick env s).1).currentMemberIps = env.taskIps ∧
    ((watchTick env s).1).primaryIp = get_primary_ip env.helloAfter env.taskIps :=
  ⟨rfl, rfl⟩

/-- C8 counterexample: a service that first reports fully-up on the 40th
check — inside the claimed 40-attempt budget — still makes the entry point
exit with code 1, because the loop then leaves `attempts = 0` and the exit
test fires on `attempts <= 0`. -/
theorem c8_counterexample :
    upAt39 39 = true ∧ 39 < 40 ∧ startupExits1 upAt39 = true :=
  ⟨rfl, by omega, by decide⟩

/-- C8 amended: the startup wait exits with code 1 exactly when the service
is not fully up at any of the first 39 checks; a service first up on the
40th check is still treated as a failure, so only success within 39 checks
proceeds to manage the replica. -/
theorem c8_startup_budget (isUp : Nat → Bool) :
    startupExits1 isUp = true ↔ (∀ k, k < 39 → isUp k = false) := by
  unfold startupExits1
  rw [beq_iff_eq, startupRun_fst_zero isUp 40 0]
  constructor
  · intro h k hk
    have := h k (by omega)
    simpa using this
  · intro h j hj
    simpa using h j (by omega)

/-- Witness for C8's amended theorem: a service that is up from the first
check never triggers the exit. -/
theorem c8_witness : startupExits1 (fun _ => true) = false := by
  have h := c8_startup_budget (fun _ => true)
  rw [← Bool.not_eq_true]
  intro ht
  exact absurd (h.mp ht 0 (by omega)) (by simp)

/-- C10: `is_service_up` is total and returns `false`, without raising, both
for a missing service and for a deployment mode that is neither Replicated
nor Global; for a Global service it returns true exactly when the
running-task count equals the number of assigned nodes that are active and
not down. -/
theorem c10_service_up (s : SwarmService) (nodes : List SwarmNode) :
    is_service_up none nodes = false ∧
    (s.mode = .other → is_service_up (some s) nodes = false) ∧
    (s.mode = .globalMode →
      (is_service_up (some s) nodes = true ↔
        (get_running_tasks s).length
          = ((active_node_ids nodes) ∩ (get_assigned_nodes s)).card)) := by
  refine ⟨rfl, ?_, ?_⟩
  · intro hm
    simp [is_service_up, hm]
  · intro hm
    simp [is_service_up, hm]

/-- Witness for C10 at concrete service and node values. -/
theorem c10_witness :
    is_service_up none nodesW = false ∧
    svcO.mode = .other ∧
    is_service_up (some svcO) nodesW = false ∧
    svcG.mode = .globalMode ∧
    (is_service_up (some svcG) nodesW = true ↔
      (get_running_tasks svcG).length
        = ((active_node_ids nodesW) ∩ (get_assigned_nodes svcG)).card) :=
  ⟨(c10_service_up svcO nodesW).1, rfl,
   (c10_service_up svcO nodesW).2.1 rfl, rfl,
   (c10_service_up svcG nodesW).2.2 rfl⟩

end RSCtrl
